import Mathlib

/-!
Verification of the input-acquisition core of the `throughlink` controller
firmware (`src/input/input.cpp`), shallowly embedded in Lean 4.

Machine integers (`uint64_t` ticks, `uint8_t` stick axes) are modelled as
`Nat` with explicit reduction modulo `2 ^ 64` where the C code relies on
unsigned wraparound.  Booleans map to `Bool`.  Fatal conditions (`PANIC`)
are modelled as `Option.none` results.
-/

namespace Throughlink

/-- `2 ^ 64`, the modulus of `uint64_t` arithmetic. -/
def U64 : Nat := 2 ^ 64

/-- Wraparound-safe unsigned 64-bit subtraction: the value of the C
expression `a - b` at type `uint64_t` (for `a`, `b` already reduced
mod `2 ^ 64`; the outer `% U64` makes the definition total on `Nat`). -/
def sub64 (a b : Nat) : Nat := (a % U64 + (U64 - b % U64)) % U64

/-- `struct ButtonHistory` (input.cpp:196-201): the last accepted boolean
value of a line and the tick on which it entered that state. -/
structure ButtonHistory where
  state : Bool
  tick : Nat
deriving DecidableEq, Repr

/-- `input_debounce` (input.cpp:211-228).  The C function mutates
`ButtonHistory*` and returns the accepted value; here it returns the pair
(accepted value, updated history).  `transition_time` is the constant
`k_ms_to_cyc_ceil64(5)` — its numeric value depends on the board clock, so
it is taken as a parameter. -/
def input_debounce (transition_time : Nat) (current_state : Bool)
    (history : ButtonHistory) (current_tick : Nat) : Bool × ButtonHistory :=
  if current_state = history.state then
    (current_state, history)
  else
    let duration_ticks := sub64 current_tick history.tick
    if duration_ticks < transition_time then
      (!current_state, history)
    else
      (current_state, { state := current_state, tick := current_tick })

/-- `enum class StickState` (declared in input.h, used at
input.cpp:146-168): the nine 8-way digital pad states. -/
inductive StickState where
  | North
  | NorthEast
  | East
  | SouthEast
  | South
  | SouthWest
  | West
  | NorthWest
  | Neutral
deriving DecidableEq, Repr

/-- `stick_state_from_x_y` (input.cpp:146-168): convert
(horizontal, vertical) in signs to a `StickState`. -/
def stick_state_from_x_y (horizontal vertical : Int) : StickState :=
  if vertical = -1 ∧ horizontal = 0 then
    StickState.North
  else if vertical = -1 ∧ horizontal = 1 then
    StickState.NorthEast
  else if vertical = 0 ∧ horizontal = 1 then
    StickState.East
  else if vertical = 1 ∧ horizontal = 1 then
    StickState.SouthEast
  else if vertical = 1 ∧ horizontal = 0 then
    StickState.South
  else if vertical = 1 ∧ horizontal = -1 then
    StickState.SouthWest
  else if vertical = 0 ∧ horizontal = -1 then
    StickState.West
  else if vertical = -1 ∧ horizontal = -1 then
    StickState.NorthWest
  else
    StickState.Neutral

/-- `stick_scale` (input.cpp:171-179): scale a sign to a `uint8_t` axis
value (0x00 / 0x80 / 0xFF). -/
def stick_scale (sign : Int) : Nat :=
  if sign < 0 then
    0x00
  else if sign = 0 then
    0x80
  else
    0xFF

/-- `RawInputState` (declared in input.h).  Modelled from the spec: the
header with the `PL_GPIOS()` line list is not in the sources; the field
list is reconstructed from the fields `input_parse` reads
(input.cpp:238-296) — one boolean per logical line: eleven pass-through
buttons, the three lockable buttons, four directional lines, the two
mode-select lines and the mode-lock line. -/
structure RawInputState where
  button_north : Bool
  button_east : Bool
  button_south : Bool
  button_west : Bool
  button_l1 : Bool
  button_l2 : Bool
  button_l3 : Bool
  button_r1 : Bool
  button_r2 : Bool
  button_r3 : Bool
  button_touchpad : Bool
  button_select : Bool
  button_start : Bool
  button_home : Bool
  stick_up : Bool
  stick_down : Bool
  stick_left : Bool
  stick_right : Bool
  mode_ls : Bool
  mode_rs : Bool
  mode_lock : Bool
deriving DecidableEq, Repr

/-- The anonymous `button_history` table (input.cpp:203-207): one
`ButtonHistory` per logical line, same line list as `RawInputState`. -/
structure ButtonHistoryTable where
  button_north : ButtonHistory
  button_east : ButtonHistory
  button_south : ButtonHistory
  button_west : ButtonHistory
  button_l1 : ButtonHistory
  button_l2 : ButtonHistory
  button_l3 : ButtonHistory
  button_r1 : ButtonHistory
  button_r2 : ButtonHistory
  button_r3 : ButtonHistory
  button_touchpad : ButtonHistory
  button_select : ButtonHistory
  button_start : ButtonHistory
  button_home : ButtonHistory
  stick_up : ButtonHistory
  stick_down : ButtonHistory
  stick_left : ButtonHistory
  stick_right : ButtonHistory
  mode_ls : ButtonHistory
  mode_rs : ButtonHistory
  mode_lock : ButtonHistory
deriving DecidableEq, Repr

/-- The debounce loop of `input_parse` (input.cpp:238-241): the
`PL_GPIO` macro expansion runs `input_debounce` on every logical line
against its own history entry.  Returns the debounced snapshot (the code
writes the results back into `in`) and the updated history table. -/
def debounce_all (transition_time current_tick : Nat)
    (hist : ButtonHistoryTable) (inp : RawInputState) :
    RawInputState × ButtonHistoryTable :=
  let n := input_debounce transition_time inp.button_north hist.button_north current_tick
  let e := input_debounce transition_time inp.button_east hist.button_east current_tick
  let s := input_debounce transition_time inp.button_south hist.button_south current_tick
  let w := input_debounce transition_time inp.button_west hist.button_west current_tick
  let l1 := input_debounce transition_time inp.button_l1 hist.button_l1 current_tick
  let l2 := input_debounce transition_time inp.button_l2 hist.button_l2 current_tick
  let l3 := input_debounce transition_time inp.button_l3 hist.button_l3 current_tick
  let r1 := input_debounce transition_time inp.button_r1 hist.button_r1 current_tick
  let r2 := input_debounce transition_time inp.button_r2 hist.button_r2 current_tick
  let r3 := input_debounce transition_time inp.button_r3 hist.button_r3 current_tick
  let tp := input_debounce transition_time inp.button_touchpad hist.button_touchpad current_tick
  let sel := input_debounce transition_time inp.button_select hist.button_select current_tick
  let st := input_debounce transition_time inp.button_start hist.button_start current_tick
  let hm := input_debounce transition_time inp.button_home hist.button_home current_tick
  let up := input_debounce transition_time inp.stick_up hist.stick_up current_tick
  let dn := input_debounce transition_time inp.stick_down hist.stick_down current_tick
  let lf := input_debounce transition_time inp.stick_left hist.stick_left current_tick
  let rt := input_debounce transition_time inp.stick_right hist.stick_right current_tick
  let mls := input_debounce transition_time inp.mode_ls hist.mode_ls current_tick
  let mrs := input_debounce transition_time inp.mode_rs hist.mode_rs current_tick
  let mlk := input_debounce transition_time inp.mode_lock hist.mode_lock current_tick
  ({ button_north := n.1, button_east := e.1, button_south := s.1, button_west := w.1,
     button_l1 := l1.1, button_l2 := l2.1, button_l3 := l3.1,
     button_r1 := r1.1, button_r2 := r2.1, button_r3 := r3.1,
     button_touchpad := tp.1, button_select := sel.1, button_start := st.1,
     button_home := hm.1,
     stick_up := up.1, stick_down := dn.1, stick_left := lf.1, stick_right := rt.1,
     mode_ls := mls.1, mode_rs := mrs.1, mode_lock := mlk.1 },
   { button_north := n.2, button_east := e.2, button_south := s.2, button_west := w.2,
     button_l1 := l1.2, button_l2 := l2.2, button_l3 := l3.2,
     button_r1 := r1.2, button_r2 := r2.2, button_r3 := r3.2,
     button_touchpad := tp.2, button_select := sel.2, button_start := st.2,
     button_home := hm.2,
     stick_up := up.2, stick_down := dn.2, stick_left := lf.2, stick_right := rt.2,
     mode_ls := mls.2, mode_rs := mrs.2, mode_lock := mlk.2 })

/-- The vertical-intent computation of `input_parse` (input.cpp:265-275):
starts at 0, `stick_up` decrements, `stick_down` increments (positive Y
means down). -/
def stick_vertical (inp : RawInputState) : Int :=
  let v : Int := 0
  let v := if inp.stick_up then v - 1 else v
  let v := if inp.stick_down then v + 1 else v
  v

/-- The horizontal-intent computation of `input_parse`
(input.cpp:266-281): starts at 0, `stick_right` increments, `stick_left`
decrements. -/
def stick_horizontal (inp : RawInputState) : Int :=
  let h : Int := 0
  let h := if inp.stick_right then h + 1 else h
  let h := if inp.stick_left then h - 1 else h
  h

/-- `enum class OutputMode` (input.cpp:283-287). -/
inductive OutputMode where
  | mode_dpad
  | mode_ls
  | mode_rs
deriving DecidableEq, Repr

/-- The mode-selection chain of `input_parse` (input.cpp:289-297):
`output_mode` starts at `mode_dpad`; `if (false) {}` followed by one
`else if (in->mode) { output_mode = mode; }` per entry of
`PL_GPIO_OUTPUT_MODES()`.  Modelled from the spec: the header declaring
`PL_GPIO_OUTPUT_MODES()` is not in the sources; per the spec the
mode-select lines are scanned in the fixed declared order `mode_ls` then
`mode_rs`, and `mode_dpad` is never matched against a line of its own. -/
def output_mode_of (mode_ls mode_rs : Bool) : OutputMode :=
  if mode_ls then
    OutputMode.mode_ls
  else if mode_rs then
    OutputMode.mode_rs
  else
    OutputMode.mode_dpad

/-- `InputState` (declared in input.h): the normalized output state
written by `input_parse` (input.cpp:230-322).  Field list reconstructed
from the fields `input_parse` writes.  `touchpad_data` is the opaque
pass-through payload, kept abstract as a `Nat`. -/
structure InputState where
  touchpad_data : Nat
  button_north : Bool
  button_east : Bool
  button_south : Bool
  button_west : Bool
  button_l1 : Bool
  button_l2 : Bool
  button_l3 : Bool
  button_r1 : Bool
  button_r2 : Bool
  button_r3 : Bool
  button_touchpad : Bool
  button_select : Bool
  button_start : Bool
  button_home : Bool
  dpad : StickState
  left_stick_x : Nat
  left_stick_y : Nat
  right_stick_x : Nat
  right_stick_y : Nat
deriving DecidableEq, Repr

/-- The button-assignment and stick-assignment tail of `input_parse`
(input.cpp:247-319) after debouncing: copy buttons (forcing
select/start/home to 0 while locked), zero the directional outputs, then
populate the one representation selected by `output_mode`. -/
def assemble_output (touchpad : Nat) (locked : Bool) (inp : RawInputState) :
    InputState :=
  let base : InputState :=
    { touchpad_data := touchpad
      button_north := inp.button_north
      button_east := inp.button_east
      button_south := inp.button_south
      button_west := inp.button_west
      button_l1 := inp.button_l1
      button_l2 := inp.button_l2
      button_l3 := inp.button_l3
      button_r1 := inp.button_r1
      button_r2 := inp.button_r2
      button_r3 := inp.button_r3
      button_touchpad := inp.button_touchpad
      button_select := if locked then false else inp.button_select
      button_start := if locked then false else inp.button_start
      button_home := if locked then false else inp.button_home
      dpad := StickState.Neutral
      left_stick_x := 128
      left_stick_y := 128
      right_stick_x := 128
      right_stick_y := 128 }
  match output_mode_of inp.mode_ls inp.mode_rs with
  | OutputMode.mode_dpad =>
      { base with dpad := stick_state_from_x_y (stick_horizontal inp) (stick_vertical inp) }
  | OutputMode.mode_ls =>
      { base with
          left_stick_x := stick_scale (stick_horizontal inp)
          left_stick_y := stick_scale (stick_vertical inp) }
  | OutputMode.mode_rs =>
      { base with
          right_stick_x := stick_scale (stick_horizontal inp)
          right_stick_y := stick_scale (stick_vertical inp) }

/-- `input_parse` (input.cpp:230-322).  The C function mutates `in` (the
debounced snapshot), the global `button_history` table and the global
`input_locked`; here those are explicit: the result is
(output state, updated history table, updated lock state).
`mode_lock_available` models the `PL_GPIO_MODE_LOCK_AVAILABLE`
compile-time configuration (input.cpp:243-245): when true, the debounced
`mode_lock` line drives the lock state before the buttons are copied. -/
def input_parse (mode_lock_available : Bool) (transition_time : Nat)
    (touchpad : Nat) (locked : Bool) (hist : ButtonHistoryTable)
    (inp : RawInputState) (current_tick : Nat) :
    InputState × ButtonHistoryTable × Bool :=
  let d := debounce_all transition_time current_tick hist inp
  let locked' := if mode_lock_available then d.1.mode_lock else locked
  (assemble_output touchpad locked' d.1, d.2, locked')

/-- `GPIO_PORT_COUNT` (input.cpp:69). -/
def GPIO_PORT_COUNT : Nat := 4

/-- The index-returning linear scan of `gpio_device_add`
(input.cpp:78-83), over the list of cached device handles (handles
modelled as `Nat`).  The C loop scans all four static slots; the slots
past `gpio_device_count` still hold the zero-initialised null handle,
which never equals a handle accepted by `input_gpio_init` (a null device
binding panics at input.cpp:97-99 before `gpio_device_add` is called), so
scanning the filled prefix is equivalent. -/
def gpio_scan : List Nat → Nat → Option Nat
  | [], _ => none
  | c :: rest, d => if d = c then some 0 else (gpio_scan rest d).map (· + 1)

/-- `gpio_device_add` (input.cpp:76-91): return the existing index of an
already-cached handle; otherwise store the handle at the next free index
and return it; `none` models the `PANIC` when the cache already holds
`GPIO_PORT_COUNT` handles. -/
def gpio_device_add (cache : List Nat) (device : Nat) :
    Option (Nat × List Nat) :=
  match gpio_scan cache device with
  | some i => some (i, cache)
  | none =>
      if cache.length = GPIO_PORT_COUNT then
        none
      else
        some (cache.length, cache ++ [device])

/-- The batched-read loop of the physical `input_get_raw_state`
(input.cpp:121-126): one `gpio_port_get_raw` per cached device; a read
reporting a fault (`none`) is the `PANIC`, modelled as `none` for the
whole loop. -/
def read_ports : List (Option Nat) → Option (List Nat)
  | [] => some []
  | r :: rest =>
      match r with
      | none => none
      | some v => (read_ports rest).map (fun l => v :: l)

/-- The physical branch of `input_get_raw_state` (input.cpp:111-142):
read every cached port, then extract each line's bit and apply polarity.
The per-line extraction is the `PL_GPIOS()` macro expansion whose pin and
polarity table lives in the header, so it is abstracted as `extract`. -/
def input_get_raw_state_physical (reads : List (Option Nat))
    (extract : List Nat → RawInputState) : Option RawInputState :=
  (read_ports reads).map extract

/-! ## Helper lemmas about the port-cache scan -/

/-- The scan misses exactly when the handle is not cached. -/
theorem gpio_scan_eq_none_iff (cache : List Nat) (d : Nat) :
    gpio_scan cache d = none ↔ d ∉ cache := by
  induction cache with
  | nil => simp [gpio_scan]
  | cons c rest ih =>
      by_cases hd : d = c
      · simp [gpio_scan, hd]
      · simp [gpio_scan, hd, Option.map_eq_none', ih]

/-- A hit of the scan points at the handle. -/
theorem gpio_scan_get (cache : List Nat) (d : Nat) :
    ∀ i, gpio_scan cache d = some i → cache.get? i = some d := by
  induction cache with
  | nil => intro i h; simp [gpio_scan] at h
  | cons c rest ih =>
      intro i h
      by_cases hd : d = c
      · simp [gpio_scan, hd] at h
        simp [← h, hd]
      · simp [gpio_scan, hd] at h
        obtain ⟨j, hj, rfl⟩ := h
        simpa using ih j hj

/-- Appending a missing handle makes the scan find it at the old length. -/
theorem gpio_scan_append (cache : List Nat) (d : Nat)
    (h : gpio_scan cache d = none) :
    gpio_scan (cache ++ [d]) d = some cache.length := by
  induction cache with
  | nil => simp [gpio_scan]
  | cons c rest ih =>
      by_cases hd : d = c
      · simp [gpio_scan, hd] at h
      · simp only [gpio_scan, hd, Option.map_eq_none', if_false] at h
        simp [gpio_scan, hd, ih h]

/-! ## Concrete fixtures shared by witnesses -/

/-- The all-false raw snapshot (every line released). -/
def rawZero : RawInputState :=
  { button_north := false, button_east := false, button_south := false,
    button_west := false, button_l1 := false, button_l2 := false,
    button_l3 := false, button_r1 := false, button_r2 := false,
    button_r3 := false, button_touchpad := false, button_select := false,
    button_start := false, button_home := false, stick_up := false,
    stick_down := false, stick_left := false, stick_right := false,
    mode_ls := false, mode_rs := false, mode_lock := false }

/-- A history table with every line stable at `false` since tick 0. -/
def histZero : ButtonHistoryTable :=
  { button_north := ⟨false, 0⟩, button_east := ⟨false, 0⟩,
    button_south := ⟨false, 0⟩, button_west := ⟨false, 0⟩,
    button_l1 := ⟨false, 0⟩, button_l2 := ⟨false, 0⟩,
    button_l3 := ⟨false, 0⟩, button_r1 := ⟨false, 0⟩,
    button_r2 := ⟨false, 0⟩, button_r3 := ⟨false, 0⟩,
    button_touchpad := ⟨false, 0⟩, button_select := ⟨false, 0⟩,
    button_start := ⟨false, 0⟩, button_home := ⟨false, 0⟩,
    stick_up := ⟨false, 0⟩, stick_down := ⟨false, 0⟩,
    stick_left := ⟨false, 0⟩, stick_right := ⟨false, 0⟩,
    mode_ls := ⟨false, 0⟩, mode_rs := ⟨false, 0⟩, mode_lock := ⟨false, 0⟩ }

/-! ## Claims -/

/-- C1: for every call to `input_debounce` with raw value `v`, history
`h` and tick `t`: if `v = h.state` it returns `v` and leaves `h`
unchanged; otherwise, if the wraparound-safe difference `t - h.tick` is
strictly below the dwell constant, it returns the previous accepted value
`!v` and leaves `h` unchanged; otherwise it stores `{state := v, tick := t}`
and returns `v`. -/
theorem C1_debounce_cases (tt : Nat) (v : Bool) (h : ButtonHistory) (t : Nat) :
    (v = h.state → input_debounce tt v h t = (v, h)) ∧
    (v ≠ h.state → sub64 t h.tick < tt → input_debounce tt v h t = (!v, h)) ∧
    (v ≠ h.state → ¬ sub64 t h.tick < tt →
      input_debounce tt v h t = (v, { state := v, tick := t })) := by
  refine ⟨fun hv => by simp [input_debounce, hv],
    fun hv hd => by simp [input_debounce, hv, hd],
    fun hv hd => by simp [input_debounce, hv, hd]⟩

/-- Witness for C1: each of the three cases at a concrete input. -/
theorem C1_debounce_cases_witness :
    input_debounce 5 false { state := false, tick := 0 } 3 =
      (false, { state := false, tick := 0 }) ∧
    input_debounce 5 true { state := false, tick := 0 } 3 =
      (false, { state := false, tick := 0 }) ∧
    input_debounce 5 true { state := false, tick := 0 } 7 =
      (true, { state := true, tick := 7 }) :=
  ⟨(C1_debounce_cases 5 false ⟨false, 0⟩ 3).1 rfl,
   (C1_debounce_cases 5 true ⟨false, 0⟩ 3).2.1 (by decide) (by decide),
   (C1_debounce_cases 5 true ⟨false, 0⟩ 7).2.2 (by decide) (by decide)⟩

/-- C2: simultaneous assertion of the two opposing signals on one axis
yields intent 0 on that axis, independent of the other axis
(neutral-on-conflict SOCD cleaning). -/
theorem C2_socd_neutral (inp : RawInputState) :
    (inp.stick_up = true → inp.stick_down = true → stick_vertical inp = 0) ∧
    (inp.stick_left = true → inp.stick_right = true → stick_horizontal inp = 0) := by
  constructor <;> intro h1 h2 <;> simp [stick_vertical, stick_horizontal, h1, h2]

/-- All four directional lines asserted at once: both axes in conflict. -/
def rawConflict : RawInputState :=
  { rawZero with
      stick_up := true, stick_down := true, stick_left := true, stick_right := true }

/-- Witness for C2: both axes in conflict (with the other axis also in
conflict, showing independence). -/
theorem C2_socd_neutral_witness :
    stick_vertical rawConflict = 0 ∧ stick_horizontal rawConflict = 0 :=
  ⟨(C2_socd_neutral rawConflict).1 rfl rfl,
   (C2_socd_neutral rawConflict).2 rfl rfl⟩

/-- C3: the digital-pad mapping realises exactly the spec's compass
table on every (horizontal, vertical) pair in \x7b-1,0,1\x7d². -/
theorem C3_compass_table :
    stick_state_from_x_y 0 (-1) = StickState.North ∧
    stick_state_from_x_y 1 (-1) = StickState.NorthEast ∧
    stick_state_from_x_y 1 0 = StickState.East ∧
    stick_state_from_x_y 1 1 = StickState.SouthEast ∧
    stick_state_from_x_y 0 1 = StickState.South ∧
    stick_state_from_x_y (-1) 1 = StickState.SouthWest ∧
    stick_state_from_x_y (-1) 0 = StickState.West ∧
    stick_state_from_x_y (-1) (-1) = StickState.NorthWest ∧
    stick_state_from_x_y 0 0 = StickState.Neutral := by
  decide

/-- C5: the first asserted mode-select line in the declared scan order
(`mode_ls`, then `mode_rs`) determines the output mode, and digital-pad
is selected exactly when no mode-select line is asserted. -/
theorem C5_mode_selection (ls rs : Bool) :
    (ls = true → output_mode_of ls rs = OutputMode.mode_ls) ∧
    (ls = false → rs = true → output_mode_of ls rs = OutputMode.mode_rs) ∧
    (output_mode_of ls rs = OutputMode.mode_dpad ↔ ls = false ∧ rs = false) := by
  cases ls <;> cases rs <;> simp [output_mode_of]

/-- Witness for C5: each branch of the scan at concrete line values. -/
theorem C5_mode_selection_witness :
    output_mode_of true true = OutputMode.mode_ls ∧
    output_mode_of false true = OutputMode.mode_rs ∧
    (output_mode_of false false = OutputMode.mode_dpad ↔
      false = false ∧ false = false) :=
  ⟨(C5_mode_selection true true).1 rfl,
   (C5_mode_selection false true).2.1 rfl rfl,
   (C5_mode_selection false false).2.2⟩

/-- C4: when a stick output mode is selected, each axis of the selected
stick is scaled sign -1 → 0x00, 0 → 0x80, +1 → 0xFF while the digital pad
stays Neutral and the non-selected stick stays at (0x80, 0x80); in
digital-pad mode both sticks stay centered. -/
theorem C4_mode_exclusivity (mla : Bool) (tt tp : Nat) (locked : Bool)
    (hist : ButtonHistoryTable) (inp : RawInputState) (t : Nat) :
    (output_mode_of ((debounce_all tt t hist inp).1).mode_ls
        ((debounce_all tt t hist inp).1).mode_rs = OutputMode.mode_ls →
      (input_parse mla tt tp locked hist inp t).1.dpad = StickState.Neutral ∧
      (input_parse mla tt tp locked hist inp t).1.right_stick_x = 0x80 ∧
      (input_parse mla tt tp locked hist inp t).1.right_stick_y = 0x80 ∧
      (input_parse mla tt tp locked hist inp t).1.left_stick_x =
        stick_scale (stick_horizontal (debounce_all tt t hist inp).1) ∧
      (input_parse mla tt tp locked hist inp t).1.left_stick_y =
        stick_scale (stick_vertical (debounce_all tt t hist inp).1)) ∧
    (output_mode_of ((debounce_all tt t hist inp).1).mode_ls
        ((debounce_all tt t hist inp).1).mode_rs = OutputMode.mode_rs →
      (input_parse mla tt tp locked hist inp t).1.dpad = StickState.Neutral ∧
      (input_parse mla tt tp locked hist inp t).1.left_stick_x = 0x80 ∧
      (input_parse mla tt tp locked hist inp t).1.left_stick_y = 0x80 ∧
      (input_parse mla tt tp locked hist inp t).1.right_stick_x =
        stick_scale (stick_horizontal (debounce_all tt t hist inp).1) ∧
      (input_parse mla tt tp locked hist inp t).1.right_stick_y =
        stick_scale (stick_vertical (debounce_all tt t hist inp).1)) ∧
    (output_mode_of ((debounce_all tt t hist inp).1).mode_ls
        ((debounce_all tt t hist inp).1).mode_rs = OutputMode.mode_dpad →
      (input_parse mla tt tp locked hist inp t).1.left_stick_x = 0x80 ∧
      (input_parse mla tt tp locked hist inp t).1.left_stick_y = 0x80 ∧
      (input_parse mla tt tp locked hist inp t).1.right_stick_x = 0x80 ∧
      (input_parse mla tt tp locked hist inp t).1.right_stick_y = 0x80) ∧
    (stick_scale (-1) = 0x00 ∧ stick_scale 0 = 0x80 ∧ stick_scale 1 = 0xFF) := by
  refine ⟨fun hm => ?_, fun hm => ?_, fun hm => ?_, by decide⟩ <;>
    simp [input_parse, assemble_output, hm]

/-- A raw snapshot selecting the left stick with right pressed. -/
def rawLS : RawInputState :=
  { rawZero with mode_ls := true, stick_right := true }

/-- Witness for C4: the left-stick case at a concrete snapshot. -/
theorem C4_mode_exclusivity_witness :
    (input_parse false 0 0 false histZero rawLS 1).1.dpad = StickState.Neutral ∧
    (input_parse false 0 0 false histZero rawLS 1).1.right_stick_x = 0x80 ∧
    (input_parse false 0 0 false histZero rawLS 1).1.right_stick_y = 0x80 ∧
    (input_parse false 0 0 false histZero rawLS 1).1.left_stick_x =
      stick_scale (stick_horizontal (debounce_all 0 1 histZero rawLS).1) ∧
    (input_parse false 0 0 false histZero rawLS 1).1.left_stick_y =
      stick_scale (stick_vertical (debounce_all 0 1 histZero rawLS).1) :=
  (C4_mode_exclusivity false 0 0 false histZero rawLS 1).1 (by decide)

/-- C6: with the lock state true, the output's `button_select`,
`button_start` and `button_home` are false regardless of their debounced
values; with it false they pass through; every other button always equals
its debounced raw value.  The lock state used is the one `input_parse`
commits (the third component of the result). -/
theorem C6_lock_suppression (mla : Bool) (tt tp : Nat) (locked : Bool)
    (hist : ButtonHistoryTable) (inp : RawInputState) (t : Nat) :
    ((input_parse mla tt tp locked hist inp t).2.2 = true →
      (input_parse mla tt tp locked hist inp t).1.button_select = false ∧
      (input_parse mla tt tp locked hist inp t).1.button_start = false ∧
      (input_parse mla tt tp locked hist inp t).1.button_home = false) ∧
    ((input_parse mla tt tp locked hist inp t).2.2 = false →
      (input_parse mla tt tp locked hist inp t).1.button_select =
        ((debounce_all tt t hist inp).1).button_select ∧
      (input_parse mla tt tp locked hist inp t).1.button_start =
        ((debounce_all tt t hist inp).1).button_start ∧
      (input_parse mla tt tp locked hist inp t).1.button_home =
        ((debounce_all tt t hist inp).1).button_home) ∧
    ((input_parse mla tt tp locked hist inp t).1.button_north =
        ((debounce_all tt t hist inp).1).button_north ∧
      (input_parse mla tt tp locked hist inp t).1.button_east =
        ((debounce_all tt t hist inp).1).button_east ∧
      (input_parse mla tt tp locked hist inp t).1.button_south =
        ((debounce_all tt t hist inp).1).button_south ∧
      (input_parse mla tt tp locked hist inp t).1.button_west =
        ((debounce_all tt t hist inp).1).button_west ∧
      (input_parse mla tt tp locked hist inp t).1.button_l1 =
        ((debounce_all tt t hist inp).1).button_l1 ∧
      (input_parse mla tt tp locked hist inp t).1.button_l2 =
        ((debounce_all tt t hist inp).1).button_l2 ∧
      (input_parse mla tt tp locked hist inp t).1.button_l3 =
        ((debounce_all tt t hist inp).1).button_l3 ∧
      (input_parse mla tt tp locked hist inp t).1.button_r1 =
        ((debounce_all tt t hist inp).1).button_r1 ∧
      (input_parse mla tt tp locked hist inp t).1.button_r2 =
        ((debounce_all tt t hist inp).1).button_r2 ∧
      (input_parse mla tt tp locked hist inp t).1.button_r3 =
        ((debounce_all tt t hist inp).1).button_r3 ∧
      (input_parse mla tt tp locked hist inp t).1.button_touchpad =
        ((debounce_all tt t hist inp).1).button_touchpad) := by
  have hfst : (input_parse mla tt tp locked hist inp t).1 =
      assemble_output tp
        (if mla then ((debounce_all tt t hist inp).1).mode_lock else locked)
        (debounce_all tt t hist inp).1 := rfl
  have hlk : (input_parse mla tt tp locked hist inp t).2.2 =
      (if mla then ((debounce_all tt t hist inp).1).mode_lock else locked) := rfl
  rw [hfst, hlk]
  cases hm : output_mode_of ((debounce_all tt t hist inp).1).mode_ls
      ((debounce_all tt t hist inp).1).mode_rs <;>
  cases hL : (if mla then ((debounce_all tt t hist inp).1).mode_lock else locked) <;>
    simp [assemble_output, hm]

/-- Witness for C6: the suppression case at a concrete locked snapshot. -/
theorem C6_lock_suppression_witness :
    (input_parse false 0 0 true histZero rawConflict 1).1.button_select = false ∧
    (input_parse false 0 0 true histZero rawConflict 1).1.button_start = false ∧
    (input_parse false 0 0 true histZero rawConflict 1).1.button_home = false :=
  (C6_lock_suppression false 0 0 true histZero rawConflict 1).1 (by decide)

/-- Iterated debouncing of one logical line over a list of
(raw value, tick) samples, one `input_debounce` call per sample, threading
the history — the per-line effect of successive `input_parse` polls. -/
def debounce_trace (tt : Nat) (h : ButtonHistory)
    (trace : List (Bool × Nat)) : ButtonHistory :=
  trace.foldl (fun h p => (input_debounce tt p.1 h p.2).2) h

/-- Counterexample to C7 as stated: with dwell 5, history stable at
`false` since tick 0, the raw input toggling every single tick (far
faster than the dwell time, and strictly monotone ticks) still flips the
accepted value once 5 ticks have elapsed since the last accepted
transition — the accepted value does change under fast toggling. -/
theorem C7_counterexample :
    List.Chain' (fun p q : Bool × Nat => q.2 = p.2 + 1 ∧ q.1 = !p.1)
      [(true, 1), (false, 2), (true, 3), (false, 4), (true, 5)] ∧
    (1 : Nat) < 5 ∧
    (debounce_trace 5 { state := false, tick := 0 }
      [(true, 1), (false, 2), (true, 3), (false, 4), (true, 5)]).state = true := by
  refine ⟨by simp [List.chain'_cons], by decide, by decide⟩

/-- C7 amended: within a single dwell window of the last accepted
transition (every sample tick strictly less than `MIN_DWELL_TICKS` past
`h.tick`, wraparound-safe) the accepted value and the whole history never
change, however fast the raw input toggles; and any history change at all
requires at least `MIN_DWELL_TICKS` since the last accepted transition
and restamps the history at the new tick — so the accepted value changes
at most once per `MIN_DWELL_TICKS` window. -/
theorem C7_amended_window :
    (∀ (tt : Nat) (h : ButtonHistory) (trace : List (Bool × Nat)),
      (∀ p ∈ trace, sub64 p.2 h.tick < tt) → debounce_trace tt h trace = h) ∧
    (∀ (tt : Nat) (v : Bool) (h : ButtonHistory) (t : Nat),
      (input_debounce tt v h t).2 ≠ h →
        tt ≤ sub64 t h.tick ∧
        (input_debounce tt v h t).2 = { state := v, tick := t }) := by
  constructor
  · intro tt h trace hall
    induction trace with
    | nil => rfl
    | cons p rest ih =>
        have hstep : (input_debounce tt p.1 h p.2).2 = h := by
          by_cases hv : p.1 = h.state
          · simp [input_debounce, hv]
          · simp [input_debounce, hv, hall p (by simp)]
        have hcons : debounce_trace tt h (p :: rest) =
            debounce_trace tt ((input_debounce tt p.1 h p.2).2) rest := rfl
        rw [hcons, hstep]
        exact ih fun q hq => hall q (by simp [hq])
  · intro tt v h t hne
    by_cases hv : v = h.state
    · exact absurd (by simp [input_debounce, hv]) hne
    · by_cases hd : sub64 t h.tick < tt
      · exact absurd (by simp [input_debounce, hv, hd]) hne
      · exact ⟨Nat.le_of_not_lt hd, by simp [input_debounce, hv, hd]⟩

/-- Witness for C7 amended: a fast-toggling burst inside the dwell window
leaves the history untouched, and a concrete accepted transition happens
only with the dwell elapsed. -/
theorem C7_amended_window_witness :
    debounce_trace 5 { state := false, tick := 0 }
      [(true, 1), (false, 2), (true, 3)] = { state := false, tick := 0 } ∧
    (5 ≤ sub64 7 0 ∧
      (input_debounce 5 true { state := false, tick := 0 } 7).2 =
        { state := true, tick := 7 }) :=
  ⟨C7_amended_window.1 5 ⟨false, 0⟩ [(true, 1), (false, 2), (true, 3)] (by decide),
   C7_amended_window.2 5 true ⟨false, 0⟩ 7 (by decide)⟩

/-- C8: registering an already-cached handle returns its existing index
without growing the cache (so registration is idempotent); a new handle
gets the next free index; and the cache never holds the same handle at
two indices. -/
theorem C8_cache_idempotent (cache : List Nat) (d : Nat) :
    (d ∈ cache → ∃ i, gpio_device_add cache d = some (i, cache) ∧
      cache.get? i = some d) ∧
    (d ∉ cache → cache.length < GPIO_PORT_COUNT →
      gpio_device_add cache d = some (cache.length, cache ++ [d])) ∧
    (∀ i cache', gpio_device_add cache d = some (i, cache') →
      gpio_device_add cache' d = some (i, cache')) ∧
    (cache.Nodup → ∀ i cache', gpio_device_add cache d = some (i, cache') →
      cache'.Nodup) := by
  refine ⟨fun hmem => ?_, fun hmem hlen => ?_, fun i cache' hadd => ?_,
    fun hnd i cache' hadd => ?_⟩
  · obtain ⟨j, hj⟩ := Option.ne_none_iff_exists'.mp
      (fun hn => (gpio_scan_eq_none_iff cache d).mp hn hmem)
    exact ⟨j, by simp [gpio_device_add, hj], gpio_scan_get cache d j hj⟩
  · have hn := (gpio_scan_eq_none_iff cache d).mpr hmem
    simp [gpio_device_add, hn, Nat.ne_of_lt hlen]
  · rcases hs : gpio_scan cache d with _ | j
    · by_cases hlen : cache.length = GPIO_PORT_COUNT
      · simp [gpio_device_add, hs, hlen] at hadd
      · simp [gpio_device_add, hs, hlen] at hadd
        obtain ⟨hi, hc⟩ := hadd
        subst hi
        subst hc
        have := gpio_scan_append cache d hs
        simp [gpio_device_add, this]
    · simp [gpio_device_add, hs] at hadd
      obtain ⟨hi, hc⟩ := hadd
      subst hi
      subst hc
      simp [gpio_device_add, hs]
  · rcases hs : gpio_scan cache d with _ | j
    · by_cases hlen : cache.length = GPIO_PORT_COUNT
      · simp [gpio_device_add, hs, hlen] at hadd
      · simp [gpio_device_add, hs, hlen] at hadd
        obtain ⟨_, hc⟩ := hadd
        subst hc
        have hnotmem : d ∉ cache := (gpio_scan_eq_none_iff cache d).mp hs
        simp [List.nodup_append, hnd, hnotmem]
    · simp [gpio_device_add, hs] at hadd
      obtain ⟨_, hc⟩ := hadd
      subst hc
      exact hnd

/-- Witness for C8: concrete registrations on a two-entry cache. -/
theorem C8_cache_idempotent_witness :
    (∃ i, gpio_device_add [10, 20] 20 = some (i, [10, 20]) ∧
      [10, 20].get? i = some 20) ∧
    gpio_device_add [10, 20] 30 = some (2, [10, 20, 30]) ∧
    gpio_device_add [10, 20, 30] 30 = some (2, [10, 20, 30]) ∧
    List.Nodup [10, 20, 30] :=
  ⟨(C8_cache_idempotent [10, 20] 20).1 (by decide),
   (C8_cache_idempotent [10, 20] 30).2.1 (by decide) (by decide),
   (C8_cache_idempotent [10, 20] 30).2.2.1 2 [10, 20, 30] (by decide),
   (C8_cache_idempotent [10, 20] 30).2.2.2 (by decide) 2 [10, 20, 30] (by decide)⟩

/-- C9: the fatal conditions return no value: registering a distinct
handle into a full port cache yields `none` (the capacity `PANIC`), and a
batched physical read with any faulting port yields `none` (the read
`PANIC`) — never a partial snapshot. -/
theorem C9_fatal_conditions :
    (∀ (cache : List Nat) (d : Nat), cache.length = GPIO_PORT_COUNT →
      d ∉ cache → gpio_device_add cache d = none) ∧
    (∀ (reads : List (Option Nat)) (extract : List Nat → RawInputState),
      none ∈ reads → input_get_raw_state_physical reads extract = none) := by
  constructor
  · intro cache d hlen hmem
    have hn := (gpio_scan_eq_none_iff cache d).mpr hmem
    simp [gpio_device_add, hn, hlen]
  · have key : ∀ reads : List (Option Nat), none ∈ reads →
        read_ports reads = none := by
      intro reads
      induction reads with
      | nil => intro hf; simp at hf
      | cons r rest ih =>
          intro hf
          rcases List.mem_cons.mp hf with h1 | h1
          · subst h1
            simp [read_ports]
          · rcases r with _ | v
            · simp [read_ports]
            · simp [read_ports, ih h1]
    intro reads extract hf
    simp [input_get_raw_state_physical, key reads hf]

/-- Witness for C9: a full cache rejects a fifth handle; a faulting
second port read aborts the batched read. -/
theorem C9_fatal_conditions_witness :
    gpio_device_add [1, 2, 3, 4] 5 = none ∧
    input_get_raw_state_physical [some 0, none] (fun _ => rawZero) = none :=
  ⟨C9_fatal_conditions.1 [1, 2, 3, 4] 5 (by decide) (by decide),
   C9_fatal_conditions.2 [some 0, none] (fun _ => rawZero) (by decide)⟩

/-- C10: the value `input_debounce` returns always equals the stored
history state at the moment it returns — the debounce output is exactly
the currently-accepted history value. -/
theorem C10_debounce_returns_history_state (tt : Nat) (v : Bool)
    (h : ButtonHistory) (t : Nat) :
    (input_debounce tt v h t).1 = ((input_debounce tt v h t).2).state := by
  obtain ⟨s, tk⟩ := h
  cases v <;> cases s <;> simp [input_debounce] <;> split <;> simp

end Throughlink
